import Mathlib

/-!
Verification of the conversational-agent repository: a LangGraph agent loop
with a role-based tool-permission table (src/app/agent.py) and a flat-file
credential store (src/user_db/create_user.py).

Python dictionaries whose iteration order matters are embedded as association
lists `List (String × α)`; `dict.get(k, default)` becomes `pyGet`, and
`dict.update({k: v})` becomes `dictSet` (replace in place if the key is
present, append otherwise).  Fallible Python expressions (indexing `[-1]` or
`[0]` on a possibly-empty list) are embedded with `Except String`, the error
string recording the exception that the Python code would raise.
-/

set_option autoImplicit false

namespace AgentSpec

/-- Lookup of a key in an association list (the first matching entry wins,
matching Python dict semantics where keys are unique). -/
def lookupKey {α : Type} : List (String × α) → String → Option α
  | [], _ => none
  | (k, v) :: rest, key => if k = key then some v else lookupKey rest key

/-- Python `d.get(key, default)`. -/
def pyGet {α : Type} (d : List (String × α)) (key : String) (dft : α) : α :=
  (lookupKey d key).getD dft

/-- Python `d.update({key: v})`: replace the entry in place when the key is
present, append it otherwise. -/
def dictSet {α : Type} : List (String × α) → String → α → List (String × α)
  | [], key, v => [(key, v)]
  | (k, w) :: rest, key, v =>
    if k = key then (key, v) :: rest else (k, w) :: dictSet rest key v

theorem lookupKey_dictSet_self {α : Type} (db : List (String × α)) (key : String) (v : α) :
    lookupKey (dictSet db key v) key = some v := by
  induction db with
  | nil => simp [dictSet, lookupKey]
  | cons p rest ih =>
    obtain ⟨k, w⟩ := p
    by_cases h : k = key <;> simp [dictSet, lookupKey, h, ih]

theorem lookupKey_dictSet_ne {α : Type} (db : List (String × α)) (key k' : String) (v : α)
    (h : k' ≠ key) : lookupKey (dictSet db key v) k' = lookupKey db k' := by
  induction db with
  | nil => simp [dictSet, lookupKey, Ne.symm h]
  | cons p rest ih =>
    obtain ⟨k, w⟩ := p
    by_cases hk : k = key
    · subst hk
      simp [dictSet, lookupKey, Ne.symm h]
    · by_cases hk2 : k = k'
      · subst hk2
        simp [dictSet, lookupKey, hk]
      · simp [dictSet, lookupKey, hk, hk2, ih]

/-! ## Credential store (src/user_db/create_user.py)

`hashlib.sha256` is an external library (the spec's non-goals: "a single
one-way hash is assumed correct and is not redesigned"), so the hash is an
explicit function argument `sha256hex`; everything else follows the source. -/

/-- One value of the credential-store mapping: `{"password": ..., "user_type": ...}`. -/
structure UserData where
  password : String
  user_type : String
deriving DecidableEq

/-- `hash_password` from src/user_db/create_user.py: the hex digest of the
sha256 of the password, with the sha256 primitive passed in as `sha256hex`. -/
def hash_password (sha256hex : String → String) (password : String) : String :=
  sha256hex password

/-- `create_user` from src/user_db/create_user.py, with file I/O made explicit:
`db?` is the parsed content of the store file (`none` when the file does not
exist, read as the empty mapping), and the returned list is what is written
back.  The body hashes the password, builds `{username: {password, user_type}}`
and `dict.update`s it into the loaded mapping. -/
def create_user (sha256hex : String → String) (username password user_type : String)
    (db? : Option (List (String × UserData))) : List (String × UserData) :=
  let hashed_password := hash_password sha256hex password
  let user_data : UserData := { password := hashed_password, user_type := user_type }
  let user_db := db?.getD []
  dictSet user_db username user_data

/-- C9: for every prior stored mapping (a missing file read as the empty
mapping), `create_user` stores exactly the prior mapping updated at `username`
with the hashed password and the chosen role: the updated key maps to the new
entry, every other key is unchanged, and from a missing file the result is
exactly the one-entry mapping. -/
theorem c9_create_user_upsert (sha256hex : String → String)
    (username password user_type : String) (db? : Option (List (String × UserData))) :
    lookupKey (create_user sha256hex username password user_type db?) username
      = some { password := sha256hex password, user_type := user_type }
    ∧ (∀ u', u' ≠ username →
        lookupKey (create_user sha256hex username password user_type db?) u'
          = lookupKey (db?.getD []) u')
    ∧ create_user sha256hex username password user_type none
      = [(username, { password := sha256hex password, user_type := user_type })] := by
  refine ⟨?_, ?_, ?_⟩
  · exact lookupKey_dictSet_self _ _ _
  · intro u' h
    exact lookupKey_dictSet_ne _ _ _ _ h
  · rfl

/-- C9 witness: concrete instantiation — updating a store that already holds
an entry for "bob" with a new entry for "alice" keeps "bob" intact, stores the
hashed password for "alice", and creation from a missing file yields exactly
one entry. -/
theorem c9_create_user_upsert_witness :
    lookupKey (create_user (fun s => s ++ "#h") "alice" "pw1" "admin"
        (some [("bob", { password := "bh", user_type := "user" })])) "alice"
      = some { password := "pw1#h", user_type := "admin" }
    ∧ lookupKey (create_user (fun s => s ++ "#h") "alice" "pw1" "admin"
        (some [("bob", { password := "bh", user_type := "user" })])) "bob"
      = some { password := "bh", user_type := "user" }
    ∧ create_user (fun s => s ++ "#h") "alice" "pw1" "admin" none
      = [("alice", { password := "pw1#h", user_type := "admin" })] := by
  have h := c9_create_user_upsert (fun s => s ++ "#h") "alice" "pw1" "admin"
    (some [("bob", { password := "bh", user_type := "user" })])
  refine ⟨h.1, ?_, ?_⟩
  · have hb := h.2.1 "bob" (by decide)
    rw [hb]; rfl
  · exact (c9_create_user_upsert (fun s => s ++ "#h") "alice" "pw1" "admin" none).2.2

/-! ## Permission table and the `search` tool (src/app/agent.py, lines 27-45) -/

/-- `TOOL_PERMISSION` from src/app/agent.py: role → list of tool names. -/
def TOOL_PERMISSION : List (String × List String) :=
  [("admin", ["search", "tool2"]),
   ("user", ["tool1", "tool2"])]

/-- Python `str.lower()` (the repository only uses ASCII role and query
strings, where `Char.toLower` agrees with Python). -/
def pyLower (s : String) : String :=
  String.mk (s.data.map Char.toLower)

/-- Does the second list start with the first? (helper for Python `in` on strings). -/
def startsWithSub : List Char → List Char → Bool
  | [], _ => true
  | _ :: _, [] => false
  | c :: cs, d :: ds => c = d && startsWithSub cs ds

/-- Does the second list contain the first as a contiguous sublist? -/
def containsSub : List Char → List Char → Bool
  | needle, [] => needle.isEmpty
  | needle, d :: ds => startsWithSub needle (d :: ds) || containsSub needle ds

/-- Python `sub in s` for strings. -/
def strContains (s sub : String) : Bool :=
  containsSub sub.data s.data

/-- The permission test the source applies at tool-execution time (the
expression `"search" in TOOL_PERMISSION.get(GLOBAL_USER_TYPE, [])` inside the
`search` tool body, src/app/agent.py line 42), generalised over the tool name
as §4.2 of the spec does. -/
def permission_check (role tool : String) : Bool :=
  (pyGet TOOL_PERMISSION role []).contains tool

/-- The `search` tool body (src/app/agent.py lines 37-45), with the global
`GLOBAL_USER_TYPE` passed explicitly.  Note the single `if`: the permission
test is conjoined with the query mentioning "sf" / "san francisco", and both
failure modes fall through to the same denial string. -/
def search (global_user_type : String) (query : String) : String :=
  if (strContains (pyLower query) "sf" || strContains (pyLower query) "san francisco")
      && permission_check global_user_type "search" then
    "It\x27s 60 degrees and foggy."
  else
    "You do not have permission to run this tool."

/-- C2 counterexample: the role "admin" does list "search" in
`TOOL_PERMISSION`, yet the invocation `search("hello")` under role "admin" is
denied — the tool returns the permission-denial string because the query does
not mention San Francisco, refuting "every invocation succeeds rather than
being denied". -/
theorem c2_counterexample :
    "search" ∈ pyGet TOOL_PERMISSION "admin" []
    ∧ search "admin" "hello" = "You do not have permission to run this tool." := by
  exact ⟨by decide, by decide⟩

/-- C2 (amended): the permission test applied at tool-execution time returns
Allowed iff the tool is a member of the permission list of the role, a role
absent from `TOOL_PERMISSION` being treated as the empty list; however, for
the "search" tool under role "admin" an invocation returns the search result
iff the lowercased query contains "sf" or "san francisco" — otherwise the
denial string is returned even though "admin" lists "search". -/
theorem c2_permission_check_spec (R T q : String) :
    (permission_check R T = true ↔ ∃ ps, lookupKey TOOL_PERMISSION R = some ps ∧ T ∈ ps)
    ∧ (search "admin" q = "It\x27s 60 degrees and foggy." ↔
        (strContains (pyLower q) "sf" || strContains (pyLower q) "san francisco") = true) := by
  constructor
  · unfold permission_check pyGet
    cases h : lookupKey TOOL_PERMISSION R with
    | none => simp [h]
    | some ps => simp [h]
  · have hp : permission_check "admin" "search" = true := by decide
    unfold search
    rw [hp, Bool.and_true]
    cases hb : (strContains (pyLower q) "sf" || strContains (pyLower q) "san francisco") with
    | true => simp [hb]
    | false => simp [hb]

/-- C2 witness: under role "admin", a query mentioning "sf" yields the search
result, obtained through the amended characterisation. -/
theorem c2_permission_check_spec_witness :
    search "admin" "what about sf" = "It\x27s 60 degrees and foggy." := by
  exact (c2_permission_check_spec "admin" "search" "what about sf").2.mpr (by decide)

/-- C1 (amended, denial part): the denial-on-unauthorized behaviour exists
only inside the `search` tool (which is not bound into the agent's tool
node): for every role whose permission list does not contain "search", every
invocation of `search` returns the denial string and never the search
result — the tool body's useful branch is unreachable for that role. -/
theorem c1_search_denied_for_unlisted_role (role query : String)
    (h : "search" ∉ pyGet TOOL_PERMISSION role []) :
    search role query = "You do not have permission to run this tool." := by
  have hp : permission_check role "search" = false := by
    unfold permission_check
    cases hc : (pyGet TOOL_PERMISSION role []).contains "search" with
    | false => rfl
    | true => exact absurd (by simpa using hc) h
  unfold search
  rw [hp, Bool.and_false]
  rfl

/-- C1 witness: the unknown role "guest" resolves to the empty permission
list, so even a query about San Francisco is denied. -/
theorem c1_search_denied_for_unlisted_role_witness :
    search "guest" "weather in sf" = "You do not have permission to run this tool." := by
  exact c1_search_denied_for_unlisted_role "guest" "weather in sf" (by decide)

/-! ## Conversation data model

A message's content is either a plain string or a list of typed content
parts; a part is either a structured object (a Python dict, embedded as an
association list with string values) or a primitive.  Assistant messages
additionally carry `tool_calls`. -/

/-- One element of a content-part list. -/
inductive Item where
  | obj (fields : List (String × String))
  | prim (s : String)
deriving DecidableEq

/-- A message's `content`: a plain string or a list of parts. -/
inductive Content where
  | text (s : String)
  | parts (items : List Item)
deriving DecidableEq

/-- One entry of an assistant message's `tool_calls`. -/
structure ToolCall where
  name : String
  callId : String
deriving DecidableEq

/-- A LangChain message as the graph state stores it. -/
structure Msg where
  kind : String
  content : Content
  toolCalls : List ToolCall
deriving DecidableEq

/-- Python iteration over `message.content`: iterating a string yields its
characters (never dicts), iterating a list yields its items. -/
def contentItems : Content → List Item
  | .text s => s.data.map (fun c => .prim (String.mk [c]))
  | .parts items => items

/-! ## Session Role Resolution (src/app/agent.py, lines 205-213) -/

/-- The role-resolution block of `call_model`: if the latest message's
content is a list, Python evaluates `content[0]` (raising IndexError when the
list is empty); when that first element is a dict, the role is its
`"user_type"` field with default "default"; every other shape yields
"default". -/
def resolve_user_type : Content → Except String String
  | .text _ => .ok "default"
  | .parts [] => .error "IndexError: list index out of range"
  | .parts (first :: _) =>
    match first with
    | .obj fields => .ok (pyGet fields "user_type" "default")
    | .prim _ => .ok "default"

/-- Modelled from the spec: Session Role Resolution as claim C4 states it —
the "user_type" field of the first content part when the content is a list
whose first part is a structured object carrying that field, and "default" in
every other case, totally and without raising. -/
def resolve_user_type_spec : Content → String
  | .parts (.obj fields :: _) => pyGet fields "user_type" "default"
  | _ => "default"

/-- C4 counterexample: on a latest human message whose content is an empty
list, the source's role resolution raises IndexError (evaluating
`content[0]`), instead of returning "default" without error as the claim
states. -/
theorem c4_counterexample :
    resolve_user_type (Content.parts []) = Except.error "IndexError: list index out of range" := by
  rfl

/-- C4 (amended): role resolution agrees with the claim's total description
on every content except an empty content list: whenever the content is not an
empty list, it returns (without raising) the "user_type" field of the first
part when the content is a list headed by a structured object, and "default"
in every other case. -/
theorem c4_resolution_total_except_empty_list (c : Content) (h : c ≠ Content.parts []) :
    resolve_user_type c = Except.ok (resolve_user_type_spec c) := by
  cases c with
  | text s => rfl
  | parts items =>
    cases items with
    | nil => exact absurd rfl h
    | cons first rest =>
      cases first with
      | obj fields => rfl
      | prim s => rfl

/-- C4 witness: a content list headed by a structured object carrying
"user_type" resolves to that field's value. -/
theorem c4_resolution_total_except_empty_list_witness :
    resolve_user_type (Content.parts [Item.obj [("user_type", "admin")]])
      = Except.ok "admin" := by
  have h := c4_resolution_total_except_empty_list
    (Content.parts [Item.obj [("user_type", "admin")]]) (by decide)
  rw [h]
  rfl

/-! ## extract_product_info (src/app/agent.py, lines 77-124) -/

/-- The source's file-part test: `isinstance(item, dict)`, `"type" in
item.keys()`, and `item.get("type") in ["image_url", "media"]`. -/
def isFileLike : Item → Bool
  | .obj fields =>
    match lookupKey fields "type" with
    | some t => t = "image_url" || t = "media"
    | none => false
  | .prim _ => false

/-- The inner `for item in message.content` loop: the first file-like item of
one message (the inner `break` stops at the first match within a message). -/
def firstFileLike : List Item → Option Item
  | [] => none
  | it :: rest => if isFileLike it then some it else firstFileLike rest

/-- The outer `for message in reversed(state["messages"])` loop: each message
containing a file-like item overwrites `content_to_add` (the `break` exits
only the inner loop, not the outer one), so the final value is the match from
the last message processed — the earliest message of the conversation that
has one. -/
def findContent (msgs : List Msg) : Option Item :=
  msgs.reverse.foldl
    (fun content_to_add message =>
      match firstFileLike (contentItems message.content) with
      | some item => some item
      | none => content_to_add)
    none

/-- A message built inside `extract_product_info` for the downstream model
invocation: a SystemMessage, or a HumanMessage whose content is a part list. -/
inductive LMsg where
  | system (content : String)
  | human (items : List Item)
deriving DecidableEq

/-- The message list handed to `llm.invoke` inside `extract_product_info`. -/
def mkExtractMessages (content_to_add : Item) : List LMsg :=
  [.system "Extract product information including brand, model, specifications, and price. Return the information in JSON format including it inside the xml tag \x27<json_response>\x27 and \x27</json_response>.",
   .human [.obj [("type", "text"),
                 ("text", "Please analyze this product datasheet and extract all relevant information.")],
           content_to_add]]

/-- A Python value stored in a tool's returned dictionary. -/
inductive PyVal where
  | str (s : String)
  | state (msgs : List Msg)
  | lmsgs (ms : List LMsg)
deriving DecidableEq

/-- `extract_product_info` (src/app/agent.py lines 77-124).  The injected
graph state is the message list; `llm` is the downstream model boundary, with
`.error e` embedding `llm.invoke` raising an exception whose text is `e` (the
`try/except` of the source becomes the match on that result). -/
def extract_product_info (llm : List LMsg → Except String String)
    (state : List Msg) : List (String × PyVal) :=
  match findContent state with
  | none =>
    [("error", .str "No PDF or image file found in message history"),
     ("list_types", .state state)]
  | some content_to_add =>
    let messages := mkExtractMessages content_to_add
    match llm messages with
    | .ok response => [("product_info", .str response), ("messages", .lmsgs messages)]
    | .error e => [("error", .str ("Error processing PDF: " ++ e))]

/-- C6 (evaluated at the failing input): with an older message attaching
image "A" and a newer message attaching image "B", the selection loop returns
"A" — the part from the earliest message containing one — although the claim
(and the source's own comments, "find the most recent file") require the part
of the latest such message, here "B". -/
theorem c6_selection_returns_earliest :
    findContent
      [{ kind := "human",
         content := .parts [Item.obj [("type", "image_url"), ("image_url", "A")]],
         toolCalls := [] },
       { kind := "human",
         content := .parts [Item.obj [("type", "image_url"), ("image_url", "B")]],
         toolCalls := [] }]
      = some (Item.obj [("type", "image_url"), ("image_url", "A")])
    ∧ Item.obj [("type", "image_url"), ("image_url", "A")]
        ≠ Item.obj [("type", "image_url"), ("image_url", "B")] := by
  exact ⟨by decide, by decide⟩

theorem firstFileLike_eq_none (items : List Item)
    (h : ∀ it ∈ items, isFileLike it = false) : firstFileLike items = none := by
  induction items with
  | nil => rfl
  | cons it rest ih =>
    have h1 : isFileLike it = false := h it (by simp)
    simp only [firstFileLike, h1, Bool.false_eq_true, if_false]
    exact ih (fun x hx => h x (by simp [hx]))

theorem foldl_keep_none (msgs : List Msg)
    (h : ∀ m ∈ msgs, firstFileLike (contentItems m.content) = none) :
    msgs.foldl
      (fun content_to_add message =>
        match firstFileLike (contentItems message.content) with
        | some item => some item
        | none => content_to_add)
      none = none := by
  induction msgs with
  | nil => rfl
  | cons m rest ih =>
    have h1 := h m (by simp)
    simp only [List.foldl_cons, h1]
    exact ih (fun x hx => h x (by simp [hx]))

theorem findContent_eq_none (msgs : List Msg)
    (h : ∀ m ∈ msgs, ∀ it ∈ contentItems m.content, isFileLike it = false) :
    findContent msgs = none := by
  unfold findContent
  apply foldl_keep_none
  intro m hm
  exact firstFileLike_eq_none _ (h m (List.mem_reverse.mp hm))

/-- C7: when no message of the conversation contains a file-like content part
(no dict part with "type" equal to "image_url" or "media"), the tool returns
the structured not-found payload — a dictionary whose "error" field states
that no PDF or image file was found in message history — and, being a total
function of the state, raises no exception. -/
theorem c7_not_found_payload (llm : List LMsg → Except String String) (state : List Msg)
    (h : ∀ m ∈ state, ∀ it ∈ contentItems m.content, isFileLike it = false) :
    extract_product_info llm state
      = [("error", PyVal.str "No PDF or image file found in message history"),
         ("list_types", PyVal.state state)] := by
  unfold extract_product_info
  rw [findContent_eq_none state h]

/-- C7 witness: a conversation with one plain-text human message produces the
not-found payload. -/
theorem c7_not_found_payload_witness :
    extract_product_info (fun _ => Except.error "unused")
      [{ kind := "human", content := .text "hi", toolCalls := [] }]
      = [("error", PyVal.str "No PDF or image file found in message history"),
         ("list_types", PyVal.state [{ kind := "human", content := .text "hi", toolCalls := [] }])] := by
  exact c7_not_found_payload _ _ (by decide)

/-- C8: if the downstream model invocation inside `extract_product_info`
raises, the exception is not propagated: the tool returns a dictionary whose
"error" field describes the failure, so it reaches the caller as an ordinary
tool result. -/
theorem c8_llm_error_captured (llm : List LMsg → Except String String) (state : List Msg)
    (content_to_add : Item) (e : String)
    (hfind : findContent state = some content_to_add)
    (herr : llm (mkExtractMessages content_to_add) = Except.error e) :
    extract_product_info llm state
      = [("error", PyVal.str ("Error processing PDF: " ++ e))] := by
  unfold extract_product_info
  rw [hfind]
  simp only [herr]

/-- C8 witness: a model boundary that always raises "boom" yields the
descriptive error payload on a conversation holding a media part. -/
theorem c8_llm_error_captured_witness :
    extract_product_info (fun _ => Except.error "boom")
      [{ kind := "human",
         content := .parts [Item.obj [("type", "media"), ("data", "D")]],
         toolCalls := [] }]
      = [("error", PyVal.str ("Error processing PDF: " ++ "boom"))] := by
  exact c8_llm_error_captured _ _ (Item.obj [("type", "media"), ("data", "D")]) "boom"
    (by decide) rfl

/-! ## find_similar_products (src/app/agent.py, lines 127-177) -/

/-- The JSON body of the search request. -/
structure SearchPayload where
  query : String
  pageSize : Nat
  queryExpansionCondition : String
  spellCorrectionMode : String
  maxExtractiveAnswerCount : Nat
deriving DecidableEq

/-- The POST request: URL, body and the two headers. -/
structure SearchRequest where
  url : String
  payload : SearchPayload
  authorizationHeader : String
  contentTypeHeader : String
deriving DecidableEq

/-- The request `find_similar_products` builds (src/app/agent.py lines
137-157): every field is a hard-coded constant except the Authorization
header, which interpolates the fetched access token; the declared `dict_info`
argument appears nowhere. -/
def find_similar_products_request (token : String)
    (dict_info : List (String × String)) : SearchRequest :=
  { url := "https://discoveryengine.googleapis.com/v1alpha/projects/458373931597/locations/global/collections/default_collection/engines/rag-products_1742312919541/servingConfigs/default_search:search"
    payload :=
      { query := "can you explain me how to Parallelize the Long-term Memory Training?"
        pageSize := 10
        queryExpansionCondition := "AUTO"
        spellCorrectionMode := "AUTO"
        maxExtractiveAnswerCount := 1 }
    authorizationHeader := "Bearer " ++ token
    contentTypeHeader := "application/json" }

/-- One extractive answer of the search response. -/
structure ExtractiveAnswer where
  pageNumber : String
  content : String
deriving DecidableEq

/-- The `derivedStructData` of one result document. -/
structure DocData where
  title : String
  extractiveAnswers : List ExtractiveAnswer
deriving DecidableEq

/-- `find_similar_products` (src/app/agent.py lines 127-177): builds the
request, POSTs it (the parsed `results` array of the response is the external
boundary `results`), and folds the documents into the `text_answer` string. -/
def find_similar_products (token : String) (results : List DocData)
    (dict_info : List (String × String)) : String :=
  let _request := find_similar_products_request token dict_info
  results.foldl
    (fun text_answer document_data =>
      let text_answer := text_answer ++ "Document name: " ++ document_data.title ++ "\n"
      let text_answer := document_data.extractiveAnswers.foldl
        (fun t answer => t ++ "Page " ++ answer.pageNumber ++ ": " ++ answer.content ++ "\n")
        text_answer
      text_answer ++ "\n")
    ""

/-- C10: the search request is the same for any two `dict_info` arguments —
same URL, same hard-coded query in the payload, same headers up to the
fetched token — so the tool's behaviour is independent of its declared
argument. -/
theorem c10_request_ignores_dict_info (token : String)
    (dict_info1 dict_info2 : List (String × String)) :
    find_similar_products_request token dict_info1
      = find_similar_products_request token dict_info2
    ∧ (find_similar_products_request token dict_info1).payload.query
        = "can you explain me how to Parallelize the Long-term Memory Training?"
    ∧ (find_similar_products_request token dict_info1).authorizationHeader
        = "Bearer " ++ token := by
  exact ⟨rfl, rfl, rfl⟩

/-! ## Tool registry and the tool node (src/app/agent.py, lines 180 and 225) -/

/-- `tools = [extract_product_info, find_similar_products]`: the registry
bound both to the model and to `ToolNode(tools)`. -/
def tools : List String := ["extract_product_info", "find_similar_products"]

/-- A tool execution's outcome as the ToolNode renders it. -/
inductive ToolOut where
  | dict (payload : List (String × PyVal))
  | text (s : String)
deriving DecidableEq

/-- Execution of one requested tool by `ToolNode(tools)`: the named tool's
body runs directly — the node takes no role input and consults no permission
table.  `llm`, `token` and `results` are the external boundaries of the two
tool bodies; unregistered names dispatch to nothing. -/
def tool_node_dispatch (llm : List LMsg → Except String String) (token : String)
    (results : List DocData) (state : List Msg) (name : String)
    (dict_info : List (String × String)) : Option ToolOut :=
  if name = "extract_product_info" then
    some (.dict (extract_product_info llm state))
  else if name = "find_similar_products" then
    some (.text (find_similar_products token results dict_info))
  else none

/-- C1 counterexample: "extract_product_info" is registered in the tool node
and listed in no role's permission set (role "user" has only tool1/tool2),
yet executing it runs the tool's body — the result is the body's own
not-found payload computed from the conversation, not a denial payload; the
dispatch takes no role input at all, so this holds whatever the session role
is. -/
theorem c1_counterexample :
    "extract_product_info" ∈ tools
    ∧ "extract_product_info" ∉ pyGet TOOL_PERMISSION "user" []
    ∧ tool_node_dispatch (fun _ => Except.error "unused") "tok" [] []
        "extract_product_info" []
        = some (ToolOut.dict
            [("error", PyVal.str "No PDF or image file found in message history"),
             ("list_types", PyVal.state [])]) := by
  exact ⟨by decide, by decide, by decide⟩

/-! ## The workflow graph (src/app/agent.py, lines 189-233)

`workflow` is a two-node cycle: entry point `agent` (call_model), conditional
edges from `agent` via `should_continue` to `tools` or END, and an edge from
`tools` back to `agent`. -/

/-- The graph state (`MessagesState`) plus the process-global
`GLOBAL_USER_TYPE` that `call_model` mutates. -/
structure AgentState where
  messages : List Msg
  global_user_type : String
deriving DecidableEq

/-- `call_model` (src/app/agent.py lines 195-219): reads
`state["messages"][-1]` (raising IndexError on an empty list), runs the role
resolution of lines 205-213 on that LAST message — which mid-turn is the most
recent tool message, not the latest human message — stores the result in the
global, and appends the model's reply, passed in as `response`. -/
def call_model (response : Msg) (st : AgentState) : Except String AgentState :=
  match st.messages.getLast? with
  | none => .error "IndexError: list index out of range"
  | some last_message =>
    match resolve_user_type last_message.content with
    | .error e => .error e
    | .ok user_type =>
      .ok { messages := st.messages ++ [response], global_user_type := user_type }

/-- `should_continue` (src/app/agent.py lines 189-192): route to "tools" iff
the last message's `tool_calls` is non-empty (Python truthiness), to END
otherwise. -/
def should_continue (msgs : List Msg) : Except String String :=
  match msgs.getLast? with
  | none => .error "IndexError: list index out of range"
  | some last_message =>
    .ok (if last_message.toolCalls.isEmpty then "__end__" else "tools")

/-- The `tools → agent` edge: the ToolNode appends one tool message per
requested tool; the appended messages are `results`. -/
def tool_node (results : List Msg) (st : AgentState) : AgentState :=
  { st with messages := st.messages ++ results }

/-- The role component of a step outcome (`none` when the step raised). -/
def roleAfter : Except String AgentState → Option String
  | .ok st => some st.global_user_type
  | .error _ => none

/-- A human message whose first content part carries `user_type: admin`. -/
def humanAdminMsg : Msg :=
  { kind := "human", content := .parts [Item.obj [("user_type", "admin")]], toolCalls := [] }

/-- An assistant reply requesting one tool. -/
def assistantToolCallMsg : Msg :=
  { kind := "ai", content := .text "",
    toolCalls := [{ name := "extract_product_info", callId := "call1" }] }

/-- The tool message the ToolNode appends (content is a plain string). -/
def toolResultMsg : Msg :=
  { kind := "tool", content := .text "tool output", toolCalls := [] }

/-- A tool-free assistant reply. -/
def assistantFinalMsg : Msg :=
  { kind := "ai", content := .text "done", toolCalls := [] }

/-- C3 counterexample: in a single turn opened by a human message carrying
`user_type: admin`, the first reasoning step resolves the role to "admin",
but after the acting step appends a tool message the second reasoning step of
the same turn re-runs the resolution on that tool message and overwrites the
role with "default" — the role observed by tool execution does change
mid-turn. -/
theorem c3_counterexample :
    roleAfter (call_model assistantToolCallMsg
        { messages := [humanAdminMsg], global_user_type := "default" })
      = some "admin"
    ∧ roleAfter
        ((call_model assistantToolCallMsg
            { messages := [humanAdminMsg], global_user_type := "default" }).bind
          (fun st => call_model assistantFinalMsg (tool_node [toolResultMsg] st)))
      = some "default" := by
  exact ⟨by decide, by decide⟩

/-- C3 (amended): role resolution runs again at the start of every reasoning
step, on the conversation's last message at that moment; in particular, after
any acting step that appended at least one tool message (tool messages carry
plain-string content), the next reasoning step resolves the role to "default"
regardless of the role resolved at turn start. -/
theorem c3_role_reset_after_acting (st : AgentState) (results : List Msg) (response : Msg)
    (hne : results ≠ [])
    (htext : ∀ m ∈ results, ∃ s, m.content = Content.text s) :
    roleAfter (call_model response (tool_node results st)) = some "default" := by
  obtain ⟨s, hs⟩ := htext (results.getLast hne) (List.getLast_mem hne)
  have h1 : (st.messages ++ results).getLast? = results.getLast? :=
    List.getLast?_append_of_ne_nil st.messages hne
  have h2 : results.getLast? = some (results.getLast hne) :=
    (List.getLast?_eq_getLast results hne)
  simp [call_model, tool_node, roleAfter, h1, h2, hs, resolve_user_type]

/-- C3 witness: concrete mid-turn state — after the acting step the next
reasoning step observes role "default" even though the turn began as
"admin". -/
theorem c3_role_reset_after_acting_witness :
    roleAfter (call_model assistantFinalMsg
        (tool_node [toolResultMsg]
          { messages := [humanAdminMsg, assistantToolCallMsg], global_user_type := "admin" }))
      = some "default" := by
  refine c3_role_reset_after_acting _ [toolResultMsg] assistantFinalMsg (by decide) ?_
  intro m hm
  rw [List.mem_singleton] at hm
  subst hm
  exact ⟨"tool output", rfl⟩

/-! ## One user turn of the compiled graph -/

/-- One user turn of the compiled workflow: `agent` (call_model) runs with
the model's reply `oracle i` for the i-th reasoning step, `should_continue`
routes on the appended reply, and on "tools" the ToolNode appends
`toolResults i` and the cycle re-enters `agent`.  `fuel` bounds the recursion
(the graph itself is an unbounded cycle); on END the result is the number of
reasoning steps taken and the final state. -/
def runTurn (oracle : Nat → Msg) (toolResults : Nat → List Msg) :
    Nat → Nat → AgentState → Except String (Nat × AgentState)
  | 0, _, _ => .error "recursion limit reached"
  | fuel + 1, i, st =>
    match call_model (oracle i) st with
    | .error e => .error e
    | .ok st1 =>
      match should_continue st1.messages with
      | .error e => .error e
      | .ok route =>
        if route = "tools" then
          runTurn oracle toolResults fuel (i + 1) (tool_node (toolResults i) st1)
        else
          .ok (i + 1, st1)

/-- The conversation's last message exists and is resolvable (its content is
not an empty part list, so role resolution does not raise on it). -/
def lastOk (msgs : List Msg) : Prop :=
  ∃ m, msgs.getLast? = some m ∧ m.content ≠ Content.parts []

theorem resolve_user_type_isOk (c : Content) (h : c ≠ Content.parts []) :
    ∃ r, resolve_user_type c = Except.ok r := by
  cases c with
  | text s => exact ⟨"default", rfl⟩
  | parts items =>
    cases items with
    | nil => exact absurd rfl h
    | cons first rest =>
      cases first with
      | obj fields => exact ⟨pyGet fields "user_type" "default", rfl⟩
      | prim s => exact ⟨"default", rfl⟩

theorem runTurn_reaches_end (oracle : Nat → Msg) (toolResults : Nat → List Msg)
    (hora : ∀ i, (oracle i).content ≠ Content.parts [])
    (htr : ∀ i m, m ∈ toolResults i → m.content ≠ Content.parts []) :
    ∀ (k j : Nat) (st : AgentState),
      (∀ i, j ≤ i → i < j + k → (oracle i).toolCalls ≠ []) →
      (oracle (j + k)).toolCalls = [] →
      lastOk st.messages →
      ∃ stEnd, runTurn oracle toolResults (k + 1) j st = Except.ok (j + k + 1, stEnd) := by
  intro k
  induction k with
  | zero =>
    intro j st hreq hstop hlast
    obtain ⟨m, hm, hmc⟩ := hlast
    obtain ⟨r, hr⟩ := resolve_user_type_isOk m.content hmc
    have hlastnew : (st.messages ++ [oracle j]).getLast? = some (oracle j) :=
      List.getLast?_concat st.messages
    have hstop0 : (oracle j).toolCalls = [] := by simpa using hstop
    have hcm : call_model (oracle j) st
        = Except.ok { messages := st.messages ++ [oracle j], global_user_type := r } := by
      unfold call_model
      rw [hm]
      dsimp only
      rw [hr]
    have hsc : should_continue (st.messages ++ [oracle j]) = Except.ok "__end__" := by
      unfold should_continue
      rw [hlastnew]
      dsimp only
      rw [hstop0]
      rfl
    refine ⟨{ messages := st.messages ++ [oracle j], global_user_type := r }, ?_⟩
    simp only [runTurn]
    rw [hcm]
    dsimp only
    rw [hsc]
    dsimp only
    rw [if_neg (by decide)]
  | succ n ih =>
    intro j st hreq hstop hlast
    obtain ⟨m, hm, hmc⟩ := hlast
    obtain ⟨r, hr⟩ := resolve_user_type_isOk m.content hmc
    have hlastnew : (st.messages ++ [oracle j]).getLast? = some (oracle j) :=
      List.getLast?_concat st.messages
    have hj : (oracle j).toolCalls ≠ [] := hreq j (Nat.le_refl j) (by omega)
    have hjisEmpty : (oracle j).toolCalls.isEmpty = false := by
      cases hc : (oracle j).toolCalls with
      | nil => exact absurd hc hj
      | cons a l => rfl
    have hcm : call_model (oracle j) st
        = Except.ok { messages := st.messages ++ [oracle j], global_user_type := r } := by
      unfold call_model
      rw [hm]
      dsimp only
      rw [hr]
    have hsc : should_continue (st.messages ++ [oracle j]) = Except.ok "tools" := by
      unfold should_continue
      rw [hlastnew]
      dsimp only
      rw [hjisEmpty]
      rfl
    have hlast2 :
        lastOk ((st.messages ++ [oracle j]) ++ toolResults j) := by
      by_cases hne : toolResults j = []
      · refine ⟨oracle j, ?_, hora j⟩
        rw [hne, List.append_nil]
        exact hlastnew
      · refine ⟨(toolResults j).getLast hne, ?_, htr j _ (List.getLast_mem hne)⟩
        rw [List.getLast?_append_of_ne_nil _ hne, List.getLast?_eq_getLast _ hne]
    have hreq2 : ∀ i, j + 1 ≤ i → i < (j + 1) + n → (oracle i).toolCalls ≠ [] := by
      intro i h1 h2
      exact hreq i (by omega) (by omega)
    have hstop2 : (oracle ((j + 1) + n)).toolCalls = [] := by
      have harith : (j + 1) + n = j + (n + 1) := by omega
      rw [harith]
      exact hstop
    obtain ⟨stEnd, hEnd⟩ := ih (j + 1)
      (tool_node (toolResults j) { messages := st.messages ++ [oracle j], global_user_type := r })
      hreq2 hstop2 hlast2
    refine ⟨stEnd, ?_⟩
    simp only [runTurn]
    rw [hcm]
    dsimp only
    rw [hsc]
    dsimp only
    rw [if_pos rfl]
    rw [show j + (n + 1) + 1 = (j + 1) + n + 1 from by omega]
    exact hEnd

/-- C5: when the model emits `k` consecutive tool-requesting replies followed
by a tool-free one, the turn's loop — routing to the tool node exactly when
the latest assistant message carries tool calls — reaches END after exactly
`k + 1` reasoning steps (the tool-requesting replies plus the final one). -/
theorem c5_turn_terminates (oracle : Nat → Msg) (toolResults : Nat → List Msg)
    (st0 : AgentState) (k : Nat)
    (hreq : ∀ i, i < k → (oracle i).toolCalls ≠ [])
    (hstop : (oracle k).toolCalls = [])
    (hora : ∀ i, (oracle i).content ≠ Content.parts [])
    (htr : ∀ i m, m ∈ toolResults i → m.content ≠ Content.parts [])
    (hlast : lastOk st0.messages) :
    ∃ stEnd, runTurn oracle toolResults (k + 1) 0 st0 = Except.ok (k + 1, stEnd) := by
  have h := runTurn_reaches_end oracle toolResults hora htr k 0 st0
    (fun i h1 h2 => hreq i (by omega)) (by simpa using hstop) hlast
  simpa using h

/-- The reasoning-step replies of the witness run: one tool-requesting reply,
then a tool-free one. -/
def oracleEx : Nat → Msg
  | 0 => assistantToolCallMsg
  | _ + 1 => assistantFinalMsg

/-- C5 witness: a concrete two-step turn — one tool round then a final
answer — ends after exactly 2 reasoning steps. -/
theorem c5_turn_terminates_witness :
    ∃ stEnd,
      runTurn oracleEx (fun _ => [toolResultMsg]) 2 0
        { messages := [humanAdminMsg], global_user_type := "default" }
      = Except.ok (2, stEnd) := by
  refine c5_turn_terminates oracleEx (fun _ => [toolResultMsg])
    { messages := [humanAdminMsg], global_user_type := "default" } 1
    ?_ (by decide) ?_ ?_ ?_
  · intro i hi
    have : i = 0 := by omega
    subst this
    decide
  · intro i
    cases i with
    | zero => decide
    | succ n =>
      show assistantFinalMsg.content ≠ Content.parts []
      decide
  · intro i m hm
    rw [List.mem_singleton] at hm
    subst hm
    decide
  · exact ⟨humanAdminMsg, rfl, by decide⟩

end AgentSpec
